import Mathlib

/-!
# Verification of the osu-sync repository against its specification

The repository consists of a small C++ application (`osu!sync.core`) together
with the C API surface of the embedded transactional database engine it links
against.  The engine's implementation is not part of the source tree — only its
declarations and their documentation are — so the engine operations are
modelled here from the specification, while application functions such as
`getSayobotMirrorURL` are embedded directly from their C++ source.

C++ `std::string` values are modelled as `List Char`; `std::string::substr`
maps to `List.take`/`List.drop`.
-/

namespace OsuSync

/-- Embeds `getSayobotMirrorURL` from `src/osu!sync.core/network.utils.cpp`:
`"/beatmaps/" + ((beatmapId.size() <= 4) ? "0" : beatmapId.substr(0, 4)) + "/"
 + beatmapId.substr(beatmapId.size() - 4) + "/full?filename=" + beatmapId`. -/
def getSayobotMirrorURL (beatmapId : List Char) : List Char :=
  "/beatmaps/".toList
    ++ (if beatmapId.length ≤ 4 then ['0'] else beatmapId.take 4)
    ++ "/".toList
    ++ beatmapId.drop (beatmapId.length - 4)
    ++ "/full?filename=".toList
    ++ beatmapId

/-- Modelled from the spec: the content of one committed database version —
the engine's implementation is absent from the tree (only the `realm.h`
declarations are).  A version's data is a finite map from object keys to
values, represented as an association list. -/
abbrev DB := List (Nat × Int)

/-- Modelled from the spec: a realm instance owns a list of committed
versions (index = version number, append-only / copy-on-write) and zero or
one active write transaction holding the pending mutated state. -/
structure Realm where
  committed : List DB
  pending : Option DB
  deriving DecidableEq

/-- Modelled from the spec: a read transaction pinned to an immutable
version of the store. -/
structure Reader where
  version : Nat
  deriving DecidableEq

/-- Modelled from the spec: `realm_begin_read` pins the reader at the
latest committed version. -/
def realm_begin_read (r : Realm) : Reader :=
  ⟨r.committed.length - 1⟩

/-- Modelled from the spec: a read through a pinned read transaction
returns the data exactly as of the pinned version. -/
def reader_read (r : Realm) (rd : Reader) : Option DB :=
  r.committed[rd.version]?

/-- Modelled from the spec: `realm_begin_write` opens the single permitted
write transaction, seeded from the latest committed version; it fails when
a write transaction is already open. -/
def realm_begin_write (r : Realm) : Option Realm :=
  match r.pending with
  | some _ => none
  | none => some { r with pending := some (r.committed.getLastD []) }

/-- Modelled from the spec: upsert of one key/value pair into a version's
data. -/
def db_set (db : DB) (k : Nat) (v : Int) : DB :=
  (k, v) :: db.filter (fun p => p.1 ≠ k)

/-- Modelled from the spec: a property mutation inside the open write
transaction touches only the pending state, never any committed version. -/
def realm_write_set (r : Realm) (k : Nat) (v : Int) : Realm :=
  { r with pending := r.pending.map (fun db => db_set db k v) }

/-- Modelled from the spec: apply a whole list of mutations inside the
write transaction. -/
def realm_write_all (r : Realm) (ms : List (Nat × Int)) : Realm :=
  ms.foldl (fun r m => realm_write_set r m.1 m.2) r

/-- Modelled from the spec: `realm_commit` atomically appends the pending
state as the new latest committed version; it fails when no write
transaction is open. -/
def realm_commit (r : Realm) : Option Realm :=
  match r.pending with
  | none => none
  | some db => some { committed := r.committed ++ [db], pending := none }

/-- Modelled from the spec: `realm_rollback` discards the pending state,
leaving zero observable change versus the pre-transaction state. -/
def realm_rollback (r : Realm) : Realm :=
  { r with pending := none }

/-- Modelled from the spec: `realm_refresh` re-pins a reader at the latest
committed version. -/
def realm_refresh (r : Realm) (_ : Reader) : Reader :=
  ⟨r.committed.length - 1⟩

/-- Modelled from the spec: the mutations of a list applied in order to a
version's data (what a committed write transaction makes visible). -/
def db_apply (db : DB) (ms : List (Nat × Int)) : DB :=
  ms.foldl (fun db m => db_set db m.1 m.2) db

/-- Modelled from the spec: a complete write transaction — begin, mutate,
commit. -/
def realm_run_write (r : Realm) (ms : List (Nat × Int)) : Option Realm :=
  (realm_begin_write r).bind (fun r1 => realm_commit (realm_write_all r1 ms))

/-- Modelled from the spec: the operations a writer may perform on the
store after a reader has been pinned. -/
inductive EngineOp where
  | beginWrite
  | writeSet (k : Nat) (v : Int)
  | commit
  | rollback
  deriving DecidableEq

/-- Modelled from the spec: one engine call; a call that fails (commit
with no open transaction, begin-write while one is open) leaves the realm
unchanged. -/
def engine_apply (r : Realm) : EngineOp → Realm
  | .beginWrite => (realm_begin_write r).getD r
  | .writeSet k v => realm_write_set r k v
  | .commit => (realm_commit r).getD r
  | .rollback => realm_rollback r

/-- Modelled from the spec: an arbitrary sequence of engine calls run
after a reader was pinned — in particular any number of later write
transactions and commits. -/
def engine_run (r : Realm) (ops : List EngineOp) : Realm :=
  ops.foldl engine_apply r

/-- Modelled from the spec: `realm_set_insert` — a set de-duplicates by
value equality; inserting an element already present does nothing and
reports `inserted = false`, otherwise the element is added and
`inserted = true`.  Returns (new set, out_index, out_inserted). -/
def realm_set_insert (s : List Int) (x : Int) : List Int × Nat × Bool :=
  if x ∈ s then (s, s.indexOf x, false) else (s ++ [x], s.length, true)

/-- Modelled from the spec: error codes surfaced by the object layer. -/
inductive RealmError where
  | duplicatePrimaryKey
  deriving DecidableEq

/-- Modelled from the spec: a class's table, as the list of primary-key
values of its existing objects (objects are addressable by key value). -/
abbrev Table := List Int

/-- Modelled from the spec: `realm_object_create_with_primary_key` — will
not succeed if an object with the given primary key already exists; on
failure nothing is created (the table is unchanged). -/
def realm_object_create_with_primary_key (t : Table) (pk : Int) :
    Table × Except RealmError Int :=
  if pk ∈ t then (t, .error .duplicatePrimaryKey) else (t ++ [pk], .ok pk)

/-- Modelled from the spec: `realm_object_get_or_create_with_primary_key` —
if an object with the given primary key already exists it is returned and
`did_create = false`; otherwise the object is created with
`did_create = true`. -/
def realm_object_get_or_create_with_primary_key (t : Table) (pk : Int) :
    Table × Int × Bool :=
  if pk ∈ t then (t, pk, false) else (t ++ [pk], pk, true)

/-- Modelled from the spec: `realm_list_move` — the element at `fromIdx`
is removed and reinserted at `toIdx`, shifting the elements in between
(shift semantics, not swap). -/
def realm_list_move (l : List Int) (fromIdx toIdx : Nat) : List Int :=
  match l[fromIdx]? with
  | none => l
  | some x => (l.eraseIdx fromIdx).insertIdx toIdx x

/-- Modelled from the spec: a collection change notification delta — three
index sets (deletions, insertions, modifications) plus an explicit move
list. -/
structure CollectionChanges where
  deletions : List Nat
  insertions : List Nat
  modifications : List Nat
  moves : List (Nat × Nat)
  deriving DecidableEq

/-- Modelled from the spec: the structural mutations the change tracker
observes on a collection. -/
inductive MutationOp where
  | insertOp (i : Nat)
  | eraseOp (i : Nat)
  | modifyOp (i : Nat)
  | moveOp (f t : Nat)
  deriving DecidableEq

/-- Modelled from the spec: the delta recorded for a single mutation; for
a move, the source index is recorded among the deletions and the
destination index among the insertions (moves are a derived, redundant
view). -/
def changesOf : MutationOp → CollectionChanges
  | .insertOp i => ⟨[], [i], [], []⟩
  | .eraseOp i => ⟨[i], [], [], []⟩
  | .modifyOp i => ⟨[], [], [i], []⟩
  | .moveOp f t => ⟨[f], [t], [], [(f, t)]⟩

/-- Modelled from the spec: the empty delta. -/
def emptyChanges : CollectionChanges := ⟨[], [], [], []⟩

/-- Modelled from the spec: merging two deltas into one cumulative delta. -/
def mergeChanges (a b : CollectionChanges) : CollectionChanges :=
  ⟨a.deletions ++ b.deletions, a.insertions ++ b.insertions,
   a.modifications ++ b.modifications, a.moves ++ b.moves⟩

/-- Modelled from the spec: the cumulative delta of a sequence of
mutations. -/
def changesOfOps (ops : List MutationOp) : CollectionChanges :=
  (ops.map changesOf).foldl mergeChanges emptyChanges

/-- The move-set redundancy invariant: every move's source index is a
member of the deletions and its destination index a member of the
insertions. -/
def movesRedundant (c : CollectionChanges) : Prop :=
  ∀ m ∈ c.moves, m.1 ∈ c.deletions ∧ m.2 ∈ c.insertions

instance (c : CollectionChanges) : Decidable (movesRedundant c) := by
  unfold movesRedundant
  infer_instance

/-- Modelled from the spec: a listener's pending-notification state — the
per-commit deltas queued since the last delivery. -/
structure ListenerState where
  queue : List CollectionChanges
  deriving DecidableEq

/-- Modelled from the spec: a commit enqueues its delta for the
listener. -/
def notifyCommit (st : ListenerState) (c : CollectionChanges) : ListenerState :=
  ⟨st.queue ++ [c]⟩

/-- Modelled from the spec: when the listener's execution context drains
its queue, all queued deltas are merged into one cumulative delta relative
to the last-delivered version and delivered as a single notification;
nothing is delivered when no commit happened. -/
def drainQueue (st : ListenerState) : List CollectionChanges × ListenerState :=
  if st.queue.isEmpty then ([], st)
  else ([st.queue.foldl mergeChanges emptyChanges], ⟨[]⟩)

/-- Modelled from the spec: `realm_results_min` over the values of one
nullable property — `none` means not found (empty input); null values are
skipped; the inner `Option` is the computed minimum (null when every value
was null). -/
def realm_results_min (vals : List (Option Int)) : Option (Option Int) :=
  if vals.isEmpty then none
  else some ((vals.filterMap id).foldr
    (fun x acc => match acc with
      | none => some x
      | some m => some (min x m)) none)

/-- Modelled from the spec: `realm_results_max`, dual to the minimum. -/
def realm_results_max (vals : List (Option Int)) : Option (Option Int) :=
  if vals.isEmpty then none
  else some ((vals.filterMap id).foldr
    (fun x acc => match acc with
      | none => some x
      | some m => some (max x m)) none)

/-- Modelled from the spec: `realm_results_sum` — not found on empty
input, null values skipped. -/
def realm_results_sum (vals : List (Option Int)) : Option Int :=
  if vals.isEmpty then none else some (vals.filterMap id).sum

/-- Modelled from the spec: `realm_results_average` — not found on empty
input, null values skipped, and the average is always produced as a
fractional (floating-point) value regardless of the property's numeric
type. -/
def realm_results_average (vals : List (Option Int)) : Option ℚ :=
  if vals.isEmpty then none
  else some (((vals.filterMap id).sum : ℚ) / ((vals.filterMap id).length : ℚ))

/-- The states of a flexible-sync subscription set, mirroring the full
`realm_flx_sync_subscription_set_state_e` enum of the header (UNCOMMITTED,
PENDING, BOOTSTRAPPING, COMPLETE, ERROR, SUPERSEDED, AWAITING_MARK, in
declaration order). -/
inductive SubscriptionSetState where
  | uncommitted
  | pending
  | bootstrapping
  | complete
  | errorState
  | superseded
  | awaitingMark
  deriving DecidableEq, Fintype

/-- Modelled from the spec: an immutable, versioned subscription set. -/
structure SubscriptionSet where
  version : Nat
  state : SubscriptionSetState
  queries : List String
  deriving DecidableEq

/-- Modelled from the spec: a mutable subscription set checked out from an
immutable one. -/
structure MutableSubscriptionSet where
  baseVersion : Nat
  queries : List String
  deriving DecidableEq

/-- Modelled from the spec: check out a mutable subscription set for
editing. -/
def subscription_set_make_mutable (s : SubscriptionSet) : MutableSubscriptionSet :=
  ⟨s.version, s.queries⟩

/-- Modelled from the spec: insert one query subscription into a mutable
subscription set. -/
def subscription_set_insert (m : MutableSubscriptionSet) (q : String) :
    MutableSubscriptionSet :=
  ⟨m.baseVersion, m.queries ++ [q]⟩

/-- Modelled from the spec: `realm_sync_subscription_set_commit`
atomically produces a new immutable subscription set with the
predecessor's version incremented and state `Pending`. -/
def realm_sync_subscription_set_commit (m : MutableSubscriptionSet) :
    SubscriptionSet :=
  ⟨m.baseVersion + 1, .pending, m.queries⟩

/-- Modelled from the spec: the server-side events driving a committed
subscription set's state. -/
inductive ServerEvent where
  | ackBootstrap
  | bootstrapDone
  | reject
  | supersede
  deriving DecidableEq, Fintype

/-- Modelled from the spec: the asynchronous state transitions of a
committed subscription set — Pending → Bootstrapping → Complete as the
server acknowledges, or to Error on rejection, or to Superseded when
overtaken by a later commit.  The spec gives no transition into or out of
the remaining header states, so they are inert here. -/
def subscription_step : SubscriptionSetState → ServerEvent → SubscriptionSetState
  | .pending, .ackBootstrap => .bootstrapping
  | .bootstrapping, .bootstrapDone => .complete
  | .pending, .reject => .errorState
  | .bootstrapping, .reject => .errorState
  | .pending, .supersede => .superseded
  | .bootstrapping, .supersede => .superseded
  | st, _ => st

/-- Modelled from the spec: the states a committed subscription set
ranges over — Pending, Bootstrapping, Complete, Error, Superseded. -/
def committedLifecycleStates : List SubscriptionSetState :=
  [.pending, .bootstrapping, .complete, .errorState, .superseded]

end OsuSync

/-- C10: for every beatmapId of length at least 4, `getSayobotMirrorURL`
returns `"/beatmaps/" ++ p ++ "/" ++ s ++ "/full?filename=" ++ beatmapId`,
where `p` is `"0"` when the id has exactly 4 characters and otherwise its
first 4 characters, and `s` is its last 4 characters. -/
theorem C10_sayobot_mirror_url (beatmapId : List Char)
    (h : 4 ≤ beatmapId.length) :
    OsuSync.getSayobotMirrorURL beatmapId =
      "/beatmaps/".toList
        ++ (if beatmapId.length = 4 then ['0'] else beatmapId.take 4)
        ++ "/".toList
        ++ beatmapId.drop (beatmapId.length - 4)
        ++ "/full?filename=".toList
        ++ beatmapId
    ∧ (beatmapId.drop (beatmapId.length - 4)).length = 4
    ∧ (4 < beatmapId.length → (beatmapId.take 4).length = 4) := by
  refine ⟨?_, ?_, ?_⟩
  · unfold OsuSync.getSayobotMirrorURL
    rcases Nat.lt_or_ge 4 beatmapId.length with hlt | hle
    · rw [if_neg (by omega), if_neg (by omega)]
    · have h4 : beatmapId.length = 4 := le_antisymm hle h
      rw [if_pos (by omega), if_pos h4]
  · rw [List.length_drop]
    omega
  · intro hlt
    rw [List.length_take]
    omega

lemma OsuSync.realm_write_all_eq (c : List OsuSync.DB) (db : OsuSync.DB)
    (ms : List (Nat × Int)) :
    OsuSync.realm_write_all ⟨c, some db⟩ ms = ⟨c, some (OsuSync.db_apply db ms)⟩ := by
  induction ms generalizing db with
  | nil => rfl
  | cons m ms ih =>
      show OsuSync.realm_write_all ⟨c, some (OsuSync.db_set db m.1 m.2)⟩ ms = _
      rw [ih]
      rfl

lemma OsuSync.engine_apply_committed_ext (r : OsuSync.Realm) (op : OsuSync.EngineOp) :
    ∃ t, (OsuSync.engine_apply r op).committed = r.committed ++ t := by
  cases op with
  | beginWrite =>
      cases hp : r.pending with
      | none =>
          exact ⟨[], by simp [OsuSync.engine_apply, OsuSync.realm_begin_write, hp]⟩
      | some db =>
          exact ⟨[], by simp [OsuSync.engine_apply, OsuSync.realm_begin_write, hp]⟩
  | writeSet k v => exact ⟨[], by simp [OsuSync.engine_apply, OsuSync.realm_write_set]⟩
  | commit =>
      cases hp : r.pending with
      | none => exact ⟨[], by simp [OsuSync.engine_apply, OsuSync.realm_commit, hp]⟩
      | some db => exact ⟨[db], by simp [OsuSync.engine_apply, OsuSync.realm_commit, hp]⟩
  | rollback => exact ⟨[], by simp [OsuSync.engine_apply, OsuSync.realm_rollback]⟩

lemma OsuSync.engine_run_committed_ext (ops : List OsuSync.EngineOp) (r : OsuSync.Realm) :
    ∃ t, (OsuSync.engine_run r ops).committed = r.committed ++ t := by
  induction ops generalizing r with
  | nil => exact ⟨[], (List.append_nil _).symm⟩
  | cons op ops ih =>
      obtain ⟨t₁, h₁⟩ := OsuSync.engine_apply_committed_ext r op
      obtain ⟨t₂, h₂⟩ := ih (OsuSync.engine_apply r op)
      refine ⟨t₁ ++ t₂, ?_⟩
      show (OsuSync.engine_run (OsuSync.engine_apply r op) ops).committed = _
      rw [h₂, h₁, List.append_assoc]

/-- C1: a reader pinned at the latest committed version v1 via
`realm_begin_read` observes, after ANY later sequence of engine calls —
any number of later write transactions, mutations, commits and rollbacks,
hence after every later committed version v2 — exactly the same data as at
pin time, the data as of v1; so no mutation committed in any later version
is ever visible through the pinned (unreleased, unrefreshed) reader. -/
theorem C1_snapshot_isolation (r : OsuSync.Realm) (rd : OsuSync.Reader)
    (ops : List OsuSync.EngineOp)
    (hne : r.committed ≠ [])
    (hrd : rd = OsuSync.realm_begin_read r) :
    OsuSync.reader_read (OsuSync.engine_run r ops) rd = OsuSync.reader_read r rd
    ∧ OsuSync.reader_read r rd = r.committed[r.committed.length - 1]? := by
  have hlen : 0 < r.committed.length := List.length_pos.mpr hne
  have hv : rd.version = r.committed.length - 1 := by rw [hrd]; rfl
  have hlt : rd.version < r.committed.length := by omega
  obtain ⟨t, ht⟩ := OsuSync.engine_run_committed_ext ops r
  constructor
  · simp only [OsuSync.reader_read, ht]
    exact List.getElem?_append_left hlt
  · simp only [OsuSync.reader_read, hv]

/-- Witness for C1: a realm with one committed version, followed by two
full write transactions (two later commits, v2 and v3). -/
theorem C1_snapshot_isolation_witness :
    OsuSync.reader_read
        (OsuSync.engine_run ⟨[[(0, 5)]], none⟩
          [.beginWrite, .writeSet 0 7, .commit, .beginWrite, .writeSet 0 9, .commit])
        (OsuSync.realm_begin_read ⟨[[(0, 5)]], none⟩)
      = OsuSync.reader_read ⟨[[(0, 5)]], none⟩
          (OsuSync.realm_begin_read ⟨[[(0, 5)]], none⟩)
    ∧ OsuSync.reader_read ⟨[[(0, 5)]], none⟩
          (OsuSync.realm_begin_read ⟨[[(0, 5)]], none⟩)
      = ([[(0, 5)]] : List OsuSync.DB)[([[(0, 5)]] : List OsuSync.DB).length - 1]? :=
  C1_snapshot_isolation ⟨[[(0, 5)]], none⟩
    (OsuSync.realm_begin_read ⟨[[(0, 5)]], none⟩)
    [.beginWrite, .writeSet 0 7, .commit, .beginWrite, .writeSet 0 9, .commit]
    (by decide) rfl

/-- C2: a write transaction is atomic — running begin/mutate/commit makes
exactly all the mutations visible in one new version appended after the
unchanged committed history; and rolling back a mutated write transaction
restores the realm to exactly its pre-transaction state. -/
theorem C2_write_atomicity (r : OsuSync.Realm) (ms : List (Nat × Int))
    (h : r.pending = none) :
    OsuSync.realm_run_write r ms =
      some ⟨r.committed ++ [OsuSync.db_apply (r.committed.getLastD []) ms], none⟩
    ∧ (∀ rw, OsuSync.realm_begin_write r = some rw →
        OsuSync.realm_rollback (OsuSync.realm_write_all rw ms) = r) := by
  obtain ⟨c, p⟩ := r
  simp only at h
  subst h
  constructor
  · show OsuSync.realm_commit
        (OsuSync.realm_write_all ⟨c, some (c.getLastD [])⟩ ms) = _
    rw [OsuSync.realm_write_all_eq]
    rfl
  · intro rw hrw
    have hb : OsuSync.realm_begin_write ⟨c, none⟩ = some ⟨c, some (c.getLastD [])⟩ := rfl
    rw [hb] at hrw
    cases hrw
    rw [OsuSync.realm_write_all_eq]
    rfl

/-- Witness for C2 at a concrete realm and mutation list. -/
theorem C2_write_atomicity_witness :
    OsuSync.realm_run_write ⟨[[(0, 5)]], none⟩ [(1, 9), (0, 6)] =
      some ⟨[[(0, 5)]] ++
        [OsuSync.db_apply (([[(0, 5)]] : List OsuSync.DB).getLastD []) [(1, 9), (0, 6)]], none⟩
    ∧ (∀ rw, OsuSync.realm_begin_write ⟨[[(0, 5)]], none⟩ = some rw →
        OsuSync.realm_rollback (OsuSync.realm_write_all rw [(1, 9), (0, 6)]) =
          ⟨[[(0, 5)]], none⟩) :=
  C2_write_atomicity ⟨[[(0, 5)]], none⟩ [(1, 9), (0, 6)] rfl

/-- C3: inserting a value absent from a set reports `inserted = true`;
inserting it a second time reports `inserted = false` and leaves the set
unchanged, with a single membership of the value. -/
theorem C3_set_insert_idempotent (s : List Int) (x : Int) (hx : x ∉ s) :
    (OsuSync.realm_set_insert s x).2.2 = true
    ∧ (OsuSync.realm_set_insert (OsuSync.realm_set_insert s x).1 x).2.2 = false
    ∧ (OsuSync.realm_set_insert (OsuSync.realm_set_insert s x).1 x).1 =
        (OsuSync.realm_set_insert s x).1
    ∧ ((OsuSync.realm_set_insert s x).1).count x = 1 := by
  have h1 : OsuSync.realm_set_insert s x = (s ++ [x], s.length, true) := by
    simp [OsuSync.realm_set_insert, hx]
  have hmem : x ∈ s ++ [x] := by simp
  have h2 : OsuSync.realm_set_insert (s ++ [x]) x =
      (s ++ [x], (s ++ [x]).indexOf x, false) := by
    simp [OsuSync.realm_set_insert, hmem]
  rw [h1]
  simp only [h2]
  refine ⟨trivial, trivial, trivial, ?_⟩
  rw [List.count_append, List.count_eq_zero_of_not_mem hx]
  simp

/-- Witness for C3 with the set {5} and the fresh value 3. -/
theorem C3_set_insert_idempotent_witness :
    (OsuSync.realm_set_insert [5] 3).2.2 = true
    ∧ (OsuSync.realm_set_insert (OsuSync.realm_set_insert [5] 3).1 3).2.2 = false
    ∧ (OsuSync.realm_set_insert (OsuSync.realm_set_insert [5] 3).1 3).1 =
        (OsuSync.realm_set_insert [5] 3).1
    ∧ ((OsuSync.realm_set_insert [5] 3).1).count 3 = 1 :=
  C3_set_insert_idempotent [5] 3 (by decide)

/-- C4: creating an object with an already-used primary key fails with
`DuplicatePrimaryKey` and creates nothing, while get-or-create on the same
key succeeds, returns the existing object, and reports
`did_create = false`. -/
theorem C4_primary_key_uniqueness (t : OsuSync.Table) (pk : Int) (h : pk ∈ t) :
    OsuSync.realm_object_create_with_primary_key t pk =
      (t, .error .duplicatePrimaryKey)
    ∧ OsuSync.realm_object_get_or_create_with_primary_key t pk = (t, pk, false) := by
  constructor <;>
    simp [OsuSync.realm_object_create_with_primary_key,
      OsuSync.realm_object_get_or_create_with_primary_key, h]

/-- Witness for C4 with a table holding primary keys 1 and 2. -/
theorem C4_primary_key_uniqueness_witness :
    OsuSync.realm_object_create_with_primary_key [1, 2] 2 =
      ([1, 2], .error .duplicatePrimaryKey)
    ∧ OsuSync.realm_object_get_or_create_with_primary_key [1, 2] 2 =
        ([1, 2], 2, false) :=
  C4_primary_key_uniqueness [1, 2] 2 (by decide)

/-- C5: on the list [10,20,30], `move(0,2)` yields [20,30,10] (shift, not
swap), and the change delta recorded for that move reports deletions {0},
insertions {2}, and the move pair (0,2). -/
theorem C5_list_move_shift :
    OsuSync.realm_list_move [10, 20, 30] 0 2 = [20, 30, 10]
    ∧ OsuSync.changesOf (.moveOp 0 2) =
        { deletions := [0], insertions := [2], modifications := [],
          moves := [(0, 2)] } := by
  constructor
  · decide
  · rfl

/-- C6: every cumulative change delta the tracker produces satisfies the
move-set redundancy invariant — each move's source index appears among the
deletions and each destination index among the insertions. -/
theorem C6_moves_redundant (ops : List OsuSync.MutationOp) :
    OsuSync.movesRedundant (OsuSync.changesOfOps ops) := by
  have hmerge : ∀ {a b : OsuSync.CollectionChanges},
      OsuSync.movesRedundant a → OsuSync.movesRedundant b →
      OsuSync.movesRedundant (OsuSync.mergeChanges a b) := by
    intro a b ha hb m hm
    rcases List.mem_append.mp hm with h | h
    · exact ⟨List.mem_append.mpr (Or.inl (ha m h).1),
        List.mem_append.mpr (Or.inl (ha m h).2)⟩
    · exact ⟨List.mem_append.mpr (Or.inr (hb m h).1),
        List.mem_append.mpr (Or.inr (hb m h).2)⟩
  have hone : ∀ op : OsuSync.MutationOp,
      OsuSync.movesRedundant (OsuSync.changesOf op) := by
    intro op
    cases op <;> simp [OsuSync.changesOf, OsuSync.movesRedundant]
  have hgen : ∀ (l : List OsuSync.MutationOp) (acc : OsuSync.CollectionChanges),
      OsuSync.movesRedundant acc →
      OsuSync.movesRedundant ((l.map OsuSync.changesOf).foldl OsuSync.mergeChanges acc) := by
    intro l
    induction l with
    | nil => intro acc h; exact h
    | cons op l ih =>
        intro acc h
        exact ih _ (hmerge h (hone op))
  exact hgen ops OsuSync.emptyChanges (by intro m hm; cases hm)

lemma OsuSync.notify_foldl_queue (cs : List OsuSync.CollectionChanges)
    (q : List OsuSync.CollectionChanges) :
    (cs.foldl OsuSync.notifyCommit ⟨q⟩).queue = q ++ cs := by
  induction cs generalizing q with
  | nil => simp
  | cons c cs ih =>
      show (cs.foldl OsuSync.notifyCommit ⟨q ++ [c]⟩).queue = _
      rw [ih, List.append_assoc]
      rfl

lemma OsuSync.merge_foldl_insertions_length (cs : List OsuSync.CollectionChanges)
    (acc : OsuSync.CollectionChanges) :
    (cs.foldl OsuSync.mergeChanges acc).insertions.length =
      acc.insertions.length + (cs.map (fun c => c.insertions.length)).sum := by
  induction cs generalizing acc with
  | nil => simp
  | cons c cs ih =>
      show (cs.foldl OsuSync.mergeChanges (OsuSync.mergeChanges acc c)).insertions.length = _
      rw [ih]
      simp only [OsuSync.mergeChanges, List.length_append, List.map_cons, List.sum_cons]
      omega

/-- C8: for EVERY sequence of commits queued before the listener's context
drains its queue, the drain delivers exactly one delta — the cumulative
merge of all queued per-commit deltas, whose insertion count is the total
over all commits — never one delta per intermediate commit; in particular
three rapid commits each inserting one element yield one delta reporting
the three insertions. -/
theorem C8_notification_coalescing (cs : List OsuSync.CollectionChanges)
    (hne : cs ≠ []) :
    (OsuSync.drainQueue (cs.foldl OsuSync.notifyCommit ⟨[]⟩)).1 =
      [cs.foldl OsuSync.mergeChanges OsuSync.emptyChanges]
    ∧ ((OsuSync.drainQueue (cs.foldl OsuSync.notifyCommit ⟨[]⟩)).1).length = 1
    ∧ (cs.foldl OsuSync.mergeChanges OsuSync.emptyChanges).insertions.length =
        (cs.map (fun c => c.insertions.length)).sum
    ∧ (∀ i j k : Nat,
        (OsuSync.drainQueue (OsuSync.notifyCommit (OsuSync.notifyCommit
          (OsuSync.notifyCommit ⟨[]⟩ (OsuSync.changesOf (.insertOp i)))
          (OsuSync.changesOf (.insertOp j))) (OsuSync.changesOf (.insertOp k)))).1
        = [⟨[], [i, j, k], [], []⟩]) := by
  have hq : (cs.foldl OsuSync.notifyCommit ⟨[]⟩).queue = cs := by
    rw [OsuSync.notify_foldl_queue]
    rfl
  have hni : (cs.foldl OsuSync.notifyCommit ⟨[]⟩).queue.isEmpty = false := by
    rw [hq]
    cases cs with
    | nil => exact absurd rfl hne
    | cons c cs => rfl
  refine ⟨?_, ?_, ?_, ?_⟩
  · simp [OsuSync.drainQueue, hni, hq, hne]
  · simp [OsuSync.drainQueue, hni, hq, hne]
  · rw [OsuSync.merge_foldl_insertions_length]
    simp [OsuSync.emptyChanges]
  · intro i j k
    rfl

/-- Witness for C8: three queued commits, each inserting one element. -/
theorem C8_notification_coalescing_witness :
    (OsuSync.drainQueue ([OsuSync.changesOf (.insertOp 0), OsuSync.changesOf (.insertOp 1),
        OsuSync.changesOf (.insertOp 2)].foldl OsuSync.notifyCommit ⟨[]⟩)).1 =
      [[OsuSync.changesOf (.insertOp 0), OsuSync.changesOf (.insertOp 1),
        OsuSync.changesOf (.insertOp 2)].foldl OsuSync.mergeChanges OsuSync.emptyChanges]
    ∧ ((OsuSync.drainQueue ([OsuSync.changesOf (.insertOp 0), OsuSync.changesOf (.insertOp 1),
        OsuSync.changesOf (.insertOp 2)].foldl OsuSync.notifyCommit ⟨[]⟩)).1).length = 1
    ∧ ([OsuSync.changesOf (.insertOp 0), OsuSync.changesOf (.insertOp 1),
        OsuSync.changesOf (.insertOp 2)].foldl OsuSync.mergeChanges
          OsuSync.emptyChanges).insertions.length =
        ([OsuSync.changesOf (.insertOp 0), OsuSync.changesOf (.insertOp 1),
          OsuSync.changesOf (.insertOp 2)].map (fun c => c.insertions.length)).sum
    ∧ (∀ i j k : Nat,
        (OsuSync.drainQueue (OsuSync.notifyCommit (OsuSync.notifyCommit
          (OsuSync.notifyCommit ⟨[]⟩ (OsuSync.changesOf (.insertOp i)))
          (OsuSync.changesOf (.insertOp j))) (OsuSync.changesOf (.insertOp k)))).1
        = [⟨[], [i, j, k], [], []⟩]) :=
  C8_notification_coalescing
    [OsuSync.changesOf (.insertOp 0), OsuSync.changesOf (.insertOp 1),
     OsuSync.changesOf (.insertOp 2)]
    (by decide)

/-- C7: min, max, sum and average all report not-found on empty input;
on non-empty input they skip null values — the result depends only on the
non-null values — and the average is always produced as a fractional
(floating-point) value. -/
theorem C7_aggregate_semantics (vals vals' : List (Option Int))
    (hnn : vals.filterMap id = vals'.filterMap id)
    (h1 : vals ≠ []) (h2 : vals' ≠ []) :
    (OsuSync.realm_results_min ([] : List (Option Int)) = none
      ∧ OsuSync.realm_results_max ([] : List (Option Int)) = none
      ∧ OsuSync.realm_results_sum ([] : List (Option Int)) = none
      ∧ OsuSync.realm_results_average ([] : List (Option Int)) = none)
    ∧ (OsuSync.realm_results_min vals = OsuSync.realm_results_min vals'
      ∧ OsuSync.realm_results_max vals = OsuSync.realm_results_max vals'
      ∧ OsuSync.realm_results_sum vals = OsuSync.realm_results_sum vals'
      ∧ OsuSync.realm_results_average vals = OsuSync.realm_results_average vals')
    ∧ (∃ q : ℚ, OsuSync.realm_results_average vals = some q) := by
  obtain ⟨v, vs, rfl⟩ : ∃ v vs, vals = v :: vs := by
    cases vals with
    | nil => exact absurd rfl h1
    | cons v vs => exact ⟨v, vs, rfl⟩
  obtain ⟨w, ws, rfl⟩ : ∃ w ws, vals' = w :: ws := by
    cases vals' with
    | nil => exact absurd rfl h2
    | cons w ws => exact ⟨w, ws, rfl⟩
  refine ⟨⟨rfl, rfl, rfl, rfl⟩, ?_, ⟨_, rfl⟩⟩
  refine ⟨?_, ?_, ?_, ?_⟩ <;>
    simp only [OsuSync.realm_results_min, OsuSync.realm_results_max,
      OsuSync.realm_results_sum, OsuSync.realm_results_average,
      List.isEmpty_cons, hnn, if_false, Bool.false_eq_true]

/-- Witness for C7 with the lists [some 1, none] and [none, some 1],
whose non-null values agree. -/
theorem C7_aggregate_semantics_witness :
    (OsuSync.realm_results_min ([] : List (Option Int)) = none
      ∧ OsuSync.realm_results_max ([] : List (Option Int)) = none
      ∧ OsuSync.realm_results_sum ([] : List (Option Int)) = none
      ∧ OsuSync.realm_results_average ([] : List (Option Int)) = none)
    ∧ (OsuSync.realm_results_min [some 1, none] = OsuSync.realm_results_min [none, some 1]
      ∧ OsuSync.realm_results_max [some 1, none] = OsuSync.realm_results_max [none, some 1]
      ∧ OsuSync.realm_results_sum [some 1, none] = OsuSync.realm_results_sum [none, some 1]
      ∧ OsuSync.realm_results_average [some 1, none]
          = OsuSync.realm_results_average [none, some 1])
    ∧ (∃ q : ℚ, OsuSync.realm_results_average [some 1, none] = some q) :=
  C7_aggregate_semantics [some 1, none] [none, some 1] (by decide) (by decide) (by decide)

/-- C9: committing a mutable subscription set checked out from an
immutable one (after any sequence of insertions) produces a new immutable
set with the predecessor's version incremented and state `Pending`; over
the FULL header state enum, every later transition either stays put or
moves along Pending → Bootstrapping → Complete, or to Error, or to
Superseded; every state reachable from a committed set by any event
sequence lies in that lifecycle; and a committed set acknowledged by the
server passes Pending → Bootstrapping → Complete. -/
theorem C9_subscription_lifecycle (s : OsuSync.SubscriptionSet) (qs : List String) :
    (OsuSync.realm_sync_subscription_set_commit
        (qs.foldl OsuSync.subscription_set_insert
          (OsuSync.subscription_set_make_mutable s))).version = s.version + 1
    ∧ (OsuSync.realm_sync_subscription_set_commit
        (qs.foldl OsuSync.subscription_set_insert
          (OsuSync.subscription_set_make_mutable s))).state = .pending
    ∧ (∀ st ev, OsuSync.subscription_step st ev = st
        ∨ (st = .pending ∧ OsuSync.subscription_step st ev = .bootstrapping)
        ∨ (st = .bootstrapping ∧ OsuSync.subscription_step st ev = .complete)
        ∨ OsuSync.subscription_step st ev = .errorState
        ∨ OsuSync.subscription_step st ev = .superseded)
    ∧ (∀ evs : List OsuSync.ServerEvent,
        evs.foldl OsuSync.subscription_step .pending ∈ OsuSync.committedLifecycleStates)
    ∧ OsuSync.subscription_step
        (OsuSync.subscription_step .pending .ackBootstrap) .bootstrapDone
      = .complete := by
  have hver : ∀ (l : List String) (m : OsuSync.MutableSubscriptionSet),
      (l.foldl OsuSync.subscription_set_insert m).baseVersion = m.baseVersion := by
    intro l
    induction l with
    | nil => intro m; rfl
    | cons q l ih => intro m; exact ih _
  refine ⟨?_, rfl, ?_, ?_, rfl⟩
  · show (qs.foldl OsuSync.subscription_set_insert
        (OsuSync.subscription_set_make_mutable s)).baseVersion + 1 = s.version + 1
    rw [hver]
    rfl
  · intro st ev
    cases st <;> cases ev <;> simp [OsuSync.subscription_step]
  · have hclosed : ∀ st ∈ OsuSync.committedLifecycleStates, ∀ ev,
        OsuSync.subscription_step st ev ∈ OsuSync.committedLifecycleStates := by
      decide
    have hreach : ∀ (l : List OsuSync.ServerEvent) st,
        st ∈ OsuSync.committedLifecycleStates →
        l.foldl OsuSync.subscription_step st ∈ OsuSync.committedLifecycleStates := by
      intro l
      induction l with
      | nil => intro st h; exact h
      | cons ev l ih => intro st h; exact ih _ (hclosed st h ev)
    intro evs
    exact hreach evs .pending (by decide)

/-- Witness for C10 at the concrete input "12345". -/
theorem C10_sayobot_mirror_url_witness :
    OsuSync.getSayobotMirrorURL "12345".toList =
      "/beatmaps/".toList
        ++ (if ("12345".toList).length = 4 then ['0'] else ("12345".toList).take 4)
        ++ "/".toList
        ++ ("12345".toList).drop (("12345".toList).length - 4)
        ++ "/full?filename=".toList
        ++ "12345".toList
    ∧ (("12345".toList).drop (("12345".toList).length - 4)).length = 4
    ∧ (4 < ("12345".toList).length → (("12345".toList).take 4).length = 4) :=
  C10_sayobot_mirror_url "12345".toList (by decide)
